import Mathlib

/-!
# Verification of the sulfur WebDriver client

A shallow embedding of the `sulfur` crate (a WebDriver client library):
the Session Protocol Client (`src/client.rs`), the historical root-module
client (`src/lib.rs`), the driver supervisor glue (`src/chrome.rs`,
`src/driver.rs`) and the utilities in `src/junk_drawer.rs`.

HTTP transport is modelled by passing an oracle `Net := Req → RawResp`
into each operation; the operations additionally return the list of
requests they issued, so that "no network I/O happens" is the statement
that this list is empty.  JSON bodies are a small `JsonV` inductive, and
the serde-derived (de)serializers of the crate are modelled as explicit
functions on `JsonV`.
-/

set_option autoImplicit false

namespace Sulfur

/-- A JSON value, as produced/consumed by serde_json. -/
inductive JsonV where
  | null : JsonV
  | bool (b : Bool) : JsonV
  | num (n : Int) : JsonV
  | str (s : String) : JsonV
  | arr (elts : List JsonV) : JsonV
  | obj (fields : List (String × JsonV)) : JsonV

/-- Field lookup in a JSON object, first occurrence wins (serde takes the
fields in order; duplicate keys do not occur in driver responses). -/
def jsonLookup (fields : List (String × JsonV)) (key : String) : Option JsonV :=
  match fields with
  | [] => none
  | (k, v) :: rest => if k = key then some v else jsonLookup rest key

/-- `src/client.rs` `WdError`: an error returned from the webdriver
implementation, with serde(rename_all = camelCase). -/
structure WdError where
  error : String
  message : String
deriving DecidableEq

/-- serde `Deserialize` derived for `WdError`: an object carrying string
fields `error` and `message`. -/
def WdError.parse : JsonV → Option WdError
  | .obj fs =>
    match jsonLookup fs "error", jsonLookup fs "message" with
    | some (.str e), some (.str m) => some ⟨e, m⟩
    | _, _ => none
  | _ => none

/-- `src/client.rs` `Timeouts` (all in milliseconds, u64 fields). -/
structure Timeouts where
  implicit : Nat
  pageLoad : Nat
  script : Nat
deriving DecidableEq

/-- serde `Deserialize` derived for `Timeouts` with rename_all=camelCase:
u64 fields accept non-negative JSON integers. -/
def Timeouts.parse : JsonV → Option Timeouts
  | .obj fs =>
    match jsonLookup fs "implicit", jsonLookup fs "pageLoad", jsonLookup fs "script" with
    | some (.num i), some (.num p), some (.num s) =>
      if 0 ≤ i ∧ 0 ≤ p ∧ 0 ≤ s then some ⟨i.toNat, p.toNat, s.toNat⟩ else none
    | _, _, _ => none
  | _ => none

/-- serde `Serialize` derived for `Timeouts`. -/
def Timeouts.toJson (t : Timeouts) : JsonV :=
  .obj [("implicit", .num t.implicit), ("pageLoad", .num t.pageLoad),
        ("script", .num t.script)]

/-- `src/client.rs` `Window(String)`: handle for a browser window; as a
newtype struct it (de)serializes as a bare JSON string. -/
structure Window where
  handle : String
deriving DecidableEq

def Window.parse : JsonV → Option Window
  | .str s => some ⟨s⟩
  | _ => none

def Window.toJson (w : Window) : JsonV := .str w.handle

/-- The W3C element identifier key used by `#[serde(rename = ...)]` on
`Element::_id` in `src/client.rs`. -/
def w3cElementKey : String := "element-6066-11e4-a52e-4f735466cecf"

/-- The legacy (pre-W3C JSON wire protocol) vendor key for element
references, not present anywhere in `src/client.rs`. -/
def legacyElementKey : String := "ELEMENT"

/-- `src/client.rs` `Element`: the abstract representation of an element
on the current page.  Its single field `_id` is renamed on the wire to
the W3C element key. -/
structure Element where
  _id : String
deriving DecidableEq

/-- serde `Deserialize` derived for `Element`: the derive with
`#[serde(rename = "element-6066-11e4-a52e-4f735466cecf")]` requires a
string field under exactly that key (other fields are ignored). -/
def Element.parse : JsonV → Option Element
  | .obj fs =>
    match jsonLookup fs w3cElementKey with
    | some (.str s) => some ⟨s⟩
    | _ => none
  | _ => none

/-- serde `Serialize` derived for `Element`: emits the renamed key. -/
def Element.toJson (e : Element) : JsonV := .obj [(w3cElementKey, .str e._id)]

/-- `Element::id` accessor. -/
def Element.id (e : Element) : String := e._id

/-- `src/client.rs` `By`: a selector for finding elements within a page. -/
structure By where
  «using» : String
  value : String
deriving DecidableEq

/-- serde `Serialize` derived for `By` (rename_all=camelCase leaves the
already-lowercase field names unchanged). -/
def By.toJson (b : By) : JsonV := .obj [("using", .str b.«using»), ("value", .str b.value)]

-- §12.2.1 Locator strategies (`impl By` in src/client.rs)

/-- 11.2.1.1 CSS selectors. -/
def By.css (expr : String) : By := { «using» := "css selector", value := expr }

/-- 11.2.1.2 Link text. -/
def By.link_text (expr : String) : By := { «using» := "link text", value := expr }

/-- 11.2.1.3 Partial link text. -/
def By.partial_link_text (expr : String) : By :=
  { «using» := "partial link text", value := expr }

/-- 11.2.1.4 Tag name. -/
def By.tag_name (expr : String) : By := { «using» := "tag name", value := expr }

/-- 11.2.1.5 XPath. -/
def By.xpath (expr : String) : By := { «using» := "xpath", value := expr }

/-- serde parse of a bare JSON string (serde's `Deserialize` for `String`). -/
def stringParse : JsonV → Option String
  | .str s => some s
  | _ => none

/-- serde parse of `Vec<T>`: a JSON array, each element parsed by `p`. -/
def listParse {α : Type} (p : JsonV → Option α) : JsonV → Option (List α)
  | .arr elts => elts.mapM p
  | _ => none

/-- serde parse of `Option<String>` (used by `Client::attribute`): JSON
null is `none`, a string is `some`. -/
def optStringParse : JsonV → Option (Option String)
  | .null => some none
  | .str s => some (some s)
  | _ => none

/-- serde parse of `()` (the expected type of `execute::<()>`): serde_json
deserializes unit from `null`. -/
def unitParse : JsonV → Option Unit
  | .null => some ()
  | _ => none

/-! ## Percent encoding (src/client.rs lines 8-10 and url_of_segments)

`PATH_SEGMENT_ENCODE_SET` is `CONTROLS` plus the ASCII characters
space `"` `<` `>` backtick `?` and the two braces, plus `%` and `/`.
The `percent-encoding` crate operates on UTF-8 bytes and always encodes
bytes outside the ASCII range. -/

/-- Membership of a byte (as `Nat`) in `PATH_SEGMENT_ENCODE_SET`. -/
def pathSegmentEncodeSet (b : Nat) : Bool :=
  b < 0x20 || b = 0x7f ||                                -- CONTROLS
  b = 0x20 || b = 0x22 || b = 0x3c || b = 0x3e || b = 0x60 ||  -- QUERY set
  b = 0x3f || b = 0x7b || b = 0x7d ||                    -- DEFAULT set additions
  b = 0x25 || b = 0x2f ||                                -- PATH_SEGMENT additions
  0x80 ≤ b                                               -- non-ASCII always encoded

/-- UTF-8 encoding of a single code point. -/
def utf8Bytes (c : Nat) : List Nat :=
  if c < 0x80 then [c]
  else if c < 0x800 then [0xc0 + c / 0x40, 0x80 + c % 0x40]
  else if c < 0x10000 then
    [0xe0 + c / 0x1000, 0x80 + (c / 0x40) % 0x40, 0x80 + c % 0x40]
  else
    [0xf0 + c / 0x40000, 0x80 + (c / 0x1000) % 0x40, 0x80 + (c / 0x40) % 0x40,
     0x80 + c % 0x40]

/-- Upper-case hex digit, as emitted by the `percent-encoding` crate. -/
def hexDigit (n : Nat) : Char :=
  if n < 10 then Char.ofNat (48 + n) else Char.ofNat (55 + n)

/-- Percent-encode one byte: either passed through or `%XY`. -/
def encodeByte (b : Nat) : List Char :=
  if pathSegmentEncodeSet b then [Char.ofNat 0x25, hexDigit (b / 16), hexDigit (b % 16)]
  else [Char.ofNat b]

/-- `utf8_percent_encode(seg, PATH_SEGMENT_ENCODE_SET)`. -/
def percentEncodeSeg (s : String) : String :=
  String.mk ((s.data.flatMap fun c => utf8Bytes c.toNat).flatMap encodeByte)

/-- `Client::url_of_segments`: percent-encodes every segment, joins them
with `/` and resolves against the base URL.  The base URLs used by the
crate (`http://127.0.0.1:<port>/`) end in `/`, for which `Url::join` is
string concatenation. -/
def urlOfSegments (base : String) (elts : List String) : String :=
  base ++ String.intercalate "/" (elts.map percentEncodeSeg)

/-! ## Transport (src/client.rs `execute`) -/

/-- An HTTP request as built by the client (method, url, optional JSON
body). -/
inductive Req where
  | get (url : String) : Req
  | post (url : String) (body : JsonV) : Req
  | delete (url : String) : Req

/-- The observable parts of a reqwest response that `execute` consumes:
the status code, the Content-Type header (`none` when absent or not
convertible to a string), the result of `res.json()` (`none` when the
body is not valid JSON) and the result of `res.text()`. -/
structure RawResp where
  status : Nat
  contentType : Option String
  body : Option JsonV
  textBody : Option String

/-- The network oracle: what the driver answers to each request. -/
def Net : Type := Req → RawResp

/-- `reqwest::StatusCode::is_success`: 2xx. -/
def isSuccess (status : Nat) : Bool := 200 ≤ status && status < 300

/-- Rust `str::starts_with`. -/
def strStartsWith (s p : String) : Bool := p.data.isPrefixOf s.data

/-- The error type of the crate (`failure::Error`), restricted to the
variants the client itself produces. -/
inductive Err where
  /-- `failure::err_msg("No current session")` from `Client::session`. -/
  | noSession : Err
  /-- A decoded `WdError` (protocol error) converted into the error. -/
  | wd (e : WdError) : Err
  /-- A serde deserialization failure propagated from `res.json()?`. -/
  | parse : Err
  /-- A failure propagated from `res.text()?`. -/
  | textFail : Err
  /-- `bail!("Error on execution: {:?} / {:?}", res, message)`. -/
  | textDiag (status : Nat) (body : String) : Err
  /-- `bail!("Error on execution: {:?}", res)`: generic, carries only the
  response status line information. -/
  | httpStatus (status : Nat) : Err
  /-- `base64::decode` failure in the screenshot operations. -/
  | b64 : Err
deriving DecidableEq

/-- Parse of `HasValue<R>`: an object with a `value` field parsed by `p`
(serde ignores the other fields). -/
def parseHasValue {α : Type} (p : JsonV → Option α) : JsonV → Option α
  | .obj fs => (jsonLookup fs "value").bind p
  | _ => none

/-- The Content-Type used for classification:
`headers().get(CONTENT_TYPE).and_then(to_str.ok).unwrap_or("application/octet-stream")`. -/
def contentTypeOf (r : RawResp) : String :=
  r.contentType.getD "application/octet-stream"

/-- `execute` from `src/client.rs`: on 2xx, unwrap the `value` envelope
and deserialize it as `R`; otherwise classify the error by content type:
`application/json` bodies are decoded as `HasValue<WdError>`, `text/`
bodies are captured as diagnostic text, anything else becomes a generic
error with the status information. -/
def execute {R : Type} (p : JsonV → Option R) (res : RawResp) : Except Err R :=
  if isSuccess res.status then
    match res.body.bind (parseHasValue p) with
    | some v => .ok v
    | none => .error .parse
  else
    let ct := contentTypeOf res
    if strStartsWith ct "application/json" then
      match res.body.bind (parseHasValue WdError.parse) with
      | some e => .error (.wd e)
      | none => .error .parse
    else if strStartsWith ct "text/" then
      match res.textBody with
      | some message => .error (.textDiag res.status message)
      | none => .error .textFail
    else
      .error (.httpStatus res.status)

/-! ## The session protocol client (src/client.rs `Client`) -/

/-- `src/client.rs` `Client`: base URL plus the optional session id.  The
`reqwest::Client` handle is modelled by the `Net` oracle passed to each
operation. -/
structure Client where
  url : String
  sessionId : Option String
deriving DecidableEq

/-- Base64 decoding (the `base64` crate's standard alphabet with `=`
padding), used by the screenshot operations. -/
def b64Value (c : Char) : Option Nat :=
  let n := c.toNat
  if 65 ≤ n ∧ n ≤ 90 then some (n - 65)        -- A-Z
  else if 97 ≤ n ∧ n ≤ 122 then some (n - 97 + 26)  -- a-z
  else if 48 ≤ n ∧ n ≤ 57 then some (n - 48 + 52)   -- 0-9
  else if n = 43 then some 62                   -- +
  else if n = 47 then some 63                   -- /
  else none

def base64DecodeChars : List Char → Option (List Nat)
  | [] => some []
  | [a, b, pe1, pe2] =>
    if pe1.toNat = 61 ∧ pe2.toNat = 61 then      -- "xx=="
      match b64Value a, b64Value b with
      | some va, some vb =>
        if vb % 16 = 0 then some [va * 4 + vb / 16] else none
      | _, _ => none
    else if pe2.toNat = 61 then                  -- "xxx="
      match b64Value a, b64Value b, b64Value pe1 with
      | some va, some vb, some vc =>
        if vc % 4 = 0 then some [va * 4 + vb / 16, (vb % 16) * 16 + vc / 4] else none
      | _, _, _ => none
    else
      match b64Value a, b64Value b, b64Value pe1, b64Value pe2 with
      | some va, some vb, some vc, some vd =>
        some [va * 4 + vb / 16, (vb % 16) * 16 + vc / 4, (vc % 4) * 64 + vd]
      | _, _, _, _ => none
  | a :: b :: c :: d :: rest =>
    match b64Value a, b64Value b, b64Value c, b64Value d, base64DecodeChars rest with
    | some va, some vb, some vc, some vd, some tail =>
      some ([va * 4 + vb / 16, (vb % 16) * 16 + vc / 4, (vc % 4) * 64 + vd] ++ tail)
    | _, _, _, _, _ => none
  | _ => none

/-- `base64::decode`. -/
def base64Decode (s : String) : Option (List Nat) := base64DecodeChars s.data

namespace Client

/-- `Client::session`: the session id, or
`failure::err_msg("No current session")`. -/
def session (c : Client) : Except Err String :=
  match c.sessionId with
  | some r => .ok r
  | none => .error .noSession

/-- A session-scoped GET operation: every such method in `src/client.rs`
first evaluates `self.session()?` while building the path segments, then
builds the URL and only then performs the request via `execute`.  The
returned list is the network requests actually issued. -/
def getOp {R : Type} (p : JsonV → Option R) (c : Client) (net : Net)
    (trailing : List String) : Except Err R × List Req :=
  match session c with
  | .error e => (.error e, [])
  | .ok sid =>
    let req := Req.get (urlOfSegments c.url (["session", sid] ++ trailing))
    (execute p (net req), [req])

/-- A session-scoped POST operation with a JSON body; same shape as
`getOp`. -/
def postOp {R : Type} (p : JsonV → Option R) (c : Client) (net : Net)
    (trailing : List String) (body : JsonV) : Except Err R × List Req :=
  match session c with
  | .error e => (.error e, [])
  | .ok sid =>
    let req := Req.post (urlOfSegments c.url (["session", sid] ++ trailing)) body
    (execute p (net req), [req])

/-- A session-scoped DELETE operation; same shape as `getOp`. -/
def deleteOp {R : Type} (p : JsonV → Option R) (c : Client) (net : Net)
    (trailing : List String) : Except Err R × List Req :=
  match session c with
  | .error e => (.error e, [])
  | .ok sid =>
    let req := Req.delete (urlOfSegments c.url (["session", sid] ++ trailing))
    (execute p (net req), [req])

-- §8.2 Delete session

/-- `Client::close`: if a session id is present, issue the delete-session
request; on its failure return early (`?`) leaving `session_id` in
place; otherwise clear `session_id` and succeed. -/
def close (c : Client) (net : Net) : Except Err Unit × Client × List Req :=
  match c.sessionId with
  | some sessionId =>
    let req := Req.delete (urlOfSegments c.url ["session", sessionId])
    match execute unitParse (net req) with
    | .error e => (.error e, c, [req])
    | .ok _ => (.ok (), { c with sessionId := none }, [req])
  | none => (.ok (), { c with sessionId := none }, [])

/-- `impl Drop for Client`: runs `close`, logging (and otherwise
swallowing) any error. -/
def dropClient (c : Client) (net : Net) : Client × List Req :=
  let r := close c net
  (r.2.1, r.2.2)

-- §8.4 Get Timeouts
def timeouts (c : Client) (net : Net) : Except Err Timeouts × List Req :=
  getOp Timeouts.parse c net ["timeouts"]

-- §8.5 Set Timeouts
def set_timeouts (c : Client) (net : Net) (t : Timeouts) : Except Err Unit × List Req :=
  postOp unitParse c net ["timeouts"] t.toJson

-- §9.1 Navigate To
def visit (c : Client) (net : Net) (visitUrl : String) : Except Err Unit × List Req :=
  postOp unitParse c net ["url"] (.obj [("url", .str visitUrl)])

-- §9.3 Back
def back (c : Client) (net : Net) : Except Err Unit × List Req :=
  postOp unitParse c net ["back"] (.obj [])

-- §9.4 Forward
def forward (c : Client) (net : Net) : Except Err Unit × List Req :=
  postOp unitParse c net ["forward"] (.obj [])

-- §9.5 Refresh
def refresh (c : Client) (net : Net) : Except Err Unit × List Req :=
  postOp unitParse c net ["refresh"] (.obj [])

-- §9.6 Get Title
def title (c : Client) (net : Net) : Except Err String × List Req :=
  getOp stringParse c net ["title"]

-- §9.2 Get Current URL
def current_url (c : Client) (net : Net) : Except Err String × List Req :=
  getOp stringParse c net ["url"]

-- §10.1 Get Current Window handle
def window (c : Client) (net : Net) : Except Err Window × List Req :=
  getOp Window.parse c net ["window"]

-- §10.2 Close Window
def close_window (c : Client) (net : Net) : Except Err (List Window) × List Req :=
  deleteOp (listParse Window.parse) c net ["window"]

-- §10.3 Switch to Window
def switch_to_window (c : Client) (net : Net) (w : Window) : Except Err Unit × List Req :=
  postOp unitParse c net ["window"] (.obj [("handle", w.toJson)])

-- §10.4 Get Current Window handles
def windows (c : Client) (net : Net) : Except Err (List Window) × List Req :=
  getOp (listParse Window.parse) c net ["window", "handles"]

-- §10.5 Switch to frame
def switch_to_frame (c : Client) (net : Net) (frame : Option Element) :
    Except Err Unit × List Req :=
  postOp unitParse c net ["frame"]
    (.obj [("id", match frame with | some e => e.toJson | none => .null)])

def switch_to_parent_frame (c : Client) (net : Net) : Except Err Unit × List Req :=
  postOp unitParse c net ["frame", "parent"] (.obj [])

-- §12.2.2 Find Element
def find_element (c : Client) (net : Net) (by_ : By) : Except Err Element × List Req :=
  postOp Element.parse c net ["element"] by_.toJson

-- §12.2.3 Find Elements
def find_elements (c : Client) (net : Net) (by_ : By) :
    Except Err (List Element) × List Req :=
  postOp (listParse Element.parse) c net ["elements"] by_.toJson

-- §12.2.4 Find Element From Element
def find_element_from (c : Client) (net : Net) (elt : Element) (by_ : By) :
    Except Err Element × List Req :=
  postOp Element.parse c net ["element", elt.id, "element"] by_.toJson

-- §12.2.5 Find Elements From Element
def find_elements_from (c : Client) (net : Net) (elt : Element) (by_ : By) :
    Except Err (List Element) × List Req :=
  postOp (listParse Element.parse) c net ["element", elt.id, "elements"] by_.toJson

-- §12.3.5 Get Element Text
def text (c : Client) (net : Net) (elt : Element) : Except Err String × List Req :=
  getOp stringParse c net ["element", elt.id, "text"]

-- §12.3.2 Get Element Attribute
def «attribute» (c : Client) (net : Net) (elt : Element) (attr : String) :
    Except Err (Option String) × List Req :=
  getOp optStringParse c net ["element", elt.id, "attribute", attr]

-- §12.3.6 Get Element Tag Name
def name (c : Client) (net : Net) (elt : Element) : Except Err String × List Req :=
  getOp stringParse c net ["element", elt.id, "name"]

-- §12.4.1 Element Click
def click (c : Client) (net : Net) (elt : Element) : Except Err Unit × List Req :=
  postOp unitParse c net ["element", elt.id, "click"] (.obj [])

-- §12.4.3 Element Send Keys
def send_keys (c : Client) (net : Net) (elt : Element) (keys : String) :
    Except Err Unit × List Req :=
  postOp unitParse c net ["element", elt.id, "value"]
    (.obj [("text", .str keys), ("value", .arr [.str keys])])

-- §12.4.2 Element Clear
def clear (c : Client) (net : Net) (elt : Element) : Except Err Unit × List Req :=
  postOp unitParse c net ["element", elt.id, "clear"] (.obj [])

-- §13.1 Get Page Source
def page_source (c : Client) (net : Net) : Except Err String × List Req :=
  getOp stringParse c net ["source"]

-- §17.1 Take Screenshot
def screenshot (c : Client) (net : Net) : Except Err (List Nat) × List Req :=
  match getOp stringParse c net ["screenshot"] with
  | (.error e, reqs) => (.error e, reqs)
  | (.ok b64content, reqs) =>
    match base64Decode b64content with
    | some bytes => (.ok bytes, reqs)
    | none => (.error .b64, reqs)

-- §17.2 Take Element Screenshot
def element_screenshot (c : Client) (net : Net) (elt : Element) :
    Except Err (List Nat) × List Req :=
  match getOp stringParse c net ["element", elt.id, "screenshot"] with
  | (.error e, reqs) => (.error e, reqs)
  | (.ok b64content, reqs) =>
    match base64Decode b64content with
    | some bytes => (.ok bytes, reqs)
    | none => (.error .b64, reqs)

end Client

/-! ## New session (src/client.rs `Client::new_with_http`) -/

/-- `src/client.rs` `NewSessionResp` with rename_all=camelCase: a struct
with the single field `session_id`, on the wire `sessionId`. -/
structure NewSessionResp where
  sessionId : String
deriving DecidableEq

/-- serde `Deserialize` derived for `NewSessionResp`. -/
def NewSessionResp.parse : JsonV → Option NewSessionResp
  | .obj fs =>
    match jsonLookup fs "sessionId" with
    | some (.str s) => some ⟨s⟩
    | _ => none
  | _ => none

/-- `Client::new_with_http` (§8.1 Creating a new session): POST the
`NewSessionReq {capabilities}` body to `<base>/session` (the base URLs
used by the crate end in `/`, for which `Url::join` appends), decode the
response through `execute::<NewSessionResp>` — i.e. as
`HasValue<NewSessionResp>`, the session id nested under `value` — and
build the `Client` holding that id. -/
def Client.new_with_http (url : String) (alwaysMatch : JsonV) (net : Net) :
    Except Err Client × List Req :=
  let req := Req.post (url ++ "session")
    (.obj [("capabilities", .obj [("alwaysMatch", alwaysMatch)])])
  match execute NewSessionResp.parse (net req) with
  | .error e => (.error e, [req])
  | .ok body => (.ok { url := url, sessionId := some body.sessionId }, [req])

/-! ## The historical root-module client (src/lib.rs) -/

/-- `src/lib.rs` `NewSessionReply`: the session id at the top level of
the response body (the shape older chromedriver produced). -/
structure NewSessionReply where
  sessionId : String
deriving DecidableEq

def NewSessionReply.parse : JsonV → Option NewSessionReply
  | .obj fs =>
    match jsonLookup fs "sessionId" with
    | some (.str s) => some ⟨s⟩
    | _ => none
  | _ => none

/-- `src/lib.rs` `Client` (the historical snapshot kept at the crate
root): its session id is not optional. -/
structure LibClient where
  url : String
  sessionId : String
deriving DecidableEq

/-- `src/lib.rs` `WdError`: `{status, value: {error, message}}`. -/
structure LibWdError where
  status : Nat
  value : WdError
deriving DecidableEq

def LibWdError.parse : JsonV → Option LibWdError
  | .obj fs =>
    match jsonLookup fs "status", (jsonLookup fs "value").bind WdError.parse with
    | some (.num st), some v => if 0 ≤ st then some ⟨st.toNat, v⟩ else none
    | _, _ => none
  | _ => none

/-- Errors produced by `src/lib.rs` `Client::new`. -/
inductive LibErr where
  | parse : LibErr
  | bad (status : Nat) (e : LibWdError) : LibErr
deriving DecidableEq

/-- `src/lib.rs` `Client::new`: POSTs the new-session request and, on a
2xx response, decodes `NewSessionReply` straight from the body — the id
is read at the envelope top level, not under `value`. -/
def LibClient.new (url : String) (desiredCapabilities : JsonV) (net : Net) :
    Except LibErr LibClient × List Req :=
  let req := Req.post (url ++ "session")
    (.obj [("desiredCapabilities", desiredCapabilities)])
  let res := net req
  if isSuccess res.status then
    match res.body.bind NewSessionReply.parse with
    | some body => (.ok { url := url, sessionId := body.sessionId }, [req])
    | none => (.error .parse, [req])
  else
    match res.body.bind LibWdError.parse with
    | some err => (.error (.bad res.status err), [req])
    | none => (.error .parse, [req])

/-! ## The lifecycle binder (src/driver.rs `DriverHolder`) -/

/-- Teardown events observable on a `DriverHolder`: invoking the
session's `Client::close`, and invoking the driver process's close /
kill. -/
inductive Ev where
  | sessionClose : Ev
  | driverClose : Ev
deriving DecidableEq

/-- `impl Drop for Client` invokes `self.close()` (best effort). -/
def clientDropEvents : List Ev := [Ev.sessionClose]

/-- `impl Drop for Driver` (both chrome.rs and gecko.rs) kills the child
process. -/
def driverDropEvents : List Ev := [Ev.driverClose]

/-- `DriverHolder::close`: destructures the holder, runs
`client.close()?` then `driver.close()?`.  On the early-return path the
two destructured locals are dropped in reverse declaration order
(`driver` first, then `client`), so the driver is still closed by its
`Drop` impl; on the success path the same drop glue runs after the
explicit closes. -/
def driverHolderCloseEvents (c : Client) (net : Net) : List Ev :=
  match (Client.close c net).1 with
  | .error _ => [Ev.sessionClose] ++ (driverDropEvents ++ clientDropEvents)
  | .ok _ => [Ev.sessionClose, Ev.driverClose] ++ (driverDropEvents ++ clientDropEvents)

/-- Dropping a `DriverHolder` without an explicit close: it has no `Drop`
impl of its own, so its fields are finalized in declaration order —
`client` first, then `driver`. -/
def driverHolderDropEvents : List Ev := clientDropEvents ++ driverDropEvents

/-- The first session-close event strictly precedes the first
driver-close event (and a driver close does occur). -/
def sessionBeforeDriver (t : List Ev) : Prop :=
  Ev.driverClose ∈ t ∧ t.indexOf Ev.sessionClose < t.indexOf Ev.driverClose

/-! ## The supervisor wait loop (src/junk_drawer.rs `wait_until` and
src/chrome.rs `Driver::driver_config`) -/

/-- Supervisor errors. -/
inductive SupErr where
  /-- `bail!("Child process failed: {:?}", status)` from
  `ensure_still_alive`. -/
  | processExited (status : Int) : SupErr
deriving DecidableEq

/-- The loop body of `wait_until`.  Time is modelled by the total sleep
so far (`elapsed`, in ms); the pause starts at 1ms and doubles, so at
iteration depth `k` it is `2 ^ k`.  `check` is indexed by how many times
it has been invoked.  `fuel` only bounds the recursion: it starts at
`deadline + 1` and since `elapsed` grows by at least 1 per iteration,
when it reaches 0 the guard `elapsed < deadline` is already false, so
the fuel-exhausted branch coincides with the loop's own exit branch
(running the final `Ok(check()?)`). -/
def waitUntilGo {E : Type} (check : Nat → Except E Bool) (deadline : Nat) :
    Nat → Nat → Nat → Nat → Except E Bool
  | 0, _, _, i => check i
  | fuel + 1, elapsed, k, i =>
    if elapsed < deadline then
      match check i with
      | .error e => .error e
      | .ok true => check (i + 1)
      | .ok false => waitUntilGo check deadline fuel (elapsed + 2 ^ k) (k + 1) (i + 1)
    else check i

/-- `wait_until(deadline, check)` from src/junk_drawer.rs:
`while started_at.elapsed() < deadline && !check()? { sleep(pause); pause *= 2 }`
followed by a final `Ok(check()?)`. -/
def wait_until {E : Type} (deadline : Nat) (check : Nat → Except E Bool) :
    Except E Bool :=
  waitUntilGo check deadline (deadline + 1) 0 0 0

/-- The check closure passed by `Driver::driver_config`:
`driver.ensure_still_alive()?; Ok(driver.is_healthy())`.  `childStatus i`
is the child's exit status at poll `i` (`none` while still running),
`healthy i` whether `GET /status` returned a 2xx at poll `i`. -/
def startCheck (childStatus : Nat → Option Int) (healthy : Nat → Bool)
    (i : Nat) : Except SupErr Bool :=
  match childStatus i with
  | some st => .error (.processExited st)
  | none => .ok (healthy i)

/-- `src/chrome.rs` `START_TIMEOUT`: 120 seconds, in ms. -/
def START_TIMEOUT_MS : Nat := 120000

/-- The spawned driver instance (child handle and http client omitted;
they are process resources). -/
structure DriverM where
  port : Nat
deriving DecidableEq

/-- `Driver::driver_config` (src/chrome.rs lines 69-88), from the point
the child is spawned: `junk_drawer::wait_until(START_TIMEOUT, ...)?;`
followed by `Ok(driver)`.  The `?` propagates only the `Err` case of
`wait_until`; its `Ok` payload — whether the driver ever became healthy —
is discarded. -/
def driver_config (port : Nat) (check : Nat → Except SupErr Bool) :
    Except SupErr DriverM :=
  match wait_until START_TIMEOUT_MS check with
  | .error e => .error e
  | .ok _ => .ok { port := port }

/-! ## The port allocator (src/junk_drawer.rs `unused_port_no`) -/

/-- Outcome of `TcpListener::bind` on a candidate port. -/
inductive BindOutcome where
  | ok : BindOutcome
  | addrInUse : BindOutcome
  | fatal : BindOutcome
deriving DecidableEq

/-- Errors of `unused_port_no`. -/
inductive PortErr where
  /-- `err_msg("Allocated more ports than we have namespace for?")`. -/
  | exhausted : PortErr
  /-- A bind error other than `AddrInUse`, via
  `context("Binding to ephemeral port")`. -/
  | bindIo : PortErr
deriving DecidableEq

/-- `unused_port_no`, starting from the current value `off` of the global
`PORT` counter (each iteration does `PORT.fetch_add(1)`).  `off as u16`
truncates to `off % 65536`; `start_port.checked_add` fails exactly when
`4444 + off % 65536` overflows a u16, i.e. when `off % 65536 > 61091`.
Returns the result together with the list of ports a bind was attempted
on. -/
def unused_port_no (bind : Nat → BindOutcome) (off : Nat) :
    Except PortErr Nat × List Nat :=
  if h : 61091 < off % 65536 then (.error .exhausted, [])
  else
    let port := 4444 + off % 65536
    match bind port with
    | .ok => (.ok port, [port])
    | .fatal => (.error .bindIo, [port])
    | .addrInUse =>
      let rest := unused_port_no bind (off + 1)
      (rest.1, port :: rest.2)
termination_by 61092 - off % 65536
decreasing_by omega

/-! ## Claim theorems -/

/-- C10: each `By` constructor produces a selector whose strategy name is
exactly the corresponding W3C locator strategy string and whose value is
the caller's expression unchanged, for every input expression. -/
theorem by_constructors_exact (expr : String) :
    (By.css expr).«using» = "css selector" ∧ (By.css expr).value = expr ∧
    (By.link_text expr).«using» = "link text" ∧ (By.link_text expr).value = expr ∧
    (By.partial_link_text expr).«using» = "partial link text" ∧
    (By.partial_link_text expr).value = expr ∧
    (By.tag_name expr).«using» = "tag name" ∧ (By.tag_name expr).value = expr ∧
    (By.xpath expr).«using» = "xpath" ∧ (By.xpath expr).value = expr :=
  ⟨rfl, rfl, rfl, rfl, rfl, rfl, rfl, rfl, rfl, rfl⟩

/-- C1 counterexample: decoding an Element accepts the W3C key but
rejects the very same identifier under the legacy vendor key `ELEMENT`;
the two wire encodings of the same id do not decode to the same internal
representation — the legacy one does not decode at all. -/
theorem element_legacy_key_rejected_cex :
    Element.parse (.obj [(legacyElementKey, .str "abc")]) = none ∧
    Element.parse (.obj [(w3cElementKey, .str "abc")]) = some ⟨"abc"⟩ ∧
    Element.parse (.obj [(legacyElementKey, .str "abc")]) ≠
      Element.parse (.obj [(w3cElementKey, .str "abc")]) := by
  refine ⟨by decide, by decide, by decide⟩

/-- C1 (amended): decoding an Element handle accepts the identifier only
under the W3C-standard key `element-6066-11e4-a52e-4f735466cecf`; a
payload carrying the identifier only under the legacy vendor key
`ELEMENT` fails to decode. -/
theorem element_decodes_only_w3c_key (id : String) :
    Element.parse (.obj [(w3cElementKey, .str id)]) = some ⟨id⟩ ∧
    Element.parse (.obj [(legacyElementKey, .str id)]) = none :=
  ⟨rfl, rfl⟩

/-- A network oracle whose every response is a 2xx JSON body nesting the
session id under `value` (the geckodriver / W3C shape). -/
def nestedSessionNet (sid : String) : Net := fun _ =>
  { status := 200, contentType := some "application/json",
    body := some (.obj [("value", .obj [("sessionId", .str sid)])]),
    textBody := none }

/-- A network oracle whose every response is a 2xx JSON body carrying the
session id at the top level of the envelope (the shape of older
chromedriver, per the comment above `new_with_http`). -/
def topLevelSessionNet (sid : String) : Net := fun _ =>
  { status := 200, contentType := some "application/json",
    body := some (.obj [("sessionId", .str sid), ("status", .num 0),
                        ("value", .obj [("capabilities", .obj [])])]),
    textBody := none }

/-- C4 counterexample: a successful new-session response with the id at
the envelope top level makes `Client::new_with_http` fail with a parse
error instead of returning an opened client holding `"s123"`. -/
theorem new_session_toplevel_id_rejected_cex :
    (Client.new_with_http "http://127.0.0.1:4444/" (.obj [])
        (topLevelSessionNet "s123")).1 = .error .parse := rfl

/-- C4 (amended): `Client::new_with_http` extracts the session id only
when it is nested under the envelope's `value` field; a response with the
id only at the top level fails with a parse error.  (The historical
root-module `Client::new` in src/lib.rs conversely reads only the
top-level shape, so each code path accepts exactly one of the two.) -/
theorem new_session_id_nested_only (sid : String) :
    (Client.new_with_http "http://127.0.0.1:4444/" (.obj [])
        (nestedSessionNet sid)).1
      = .ok { url := "http://127.0.0.1:4444/", sessionId := some sid } ∧
    (Client.new_with_http "http://127.0.0.1:4444/" (.obj [])
        (topLevelSessionNet sid)).1 = .error .parse ∧
    (LibClient.new "http://127.0.0.1:4444/" (.obj []) (topLevelSessionNet sid)).1
      = .ok { url := "http://127.0.0.1:4444/", sessionId := sid } ∧
    (LibClient.new "http://127.0.0.1:4444/" (.obj []) (nestedSessionNet sid)).1
      = .error .parse :=
  ⟨rfl, rfl, rfl, rfl⟩

/-- C2: in the lifecycle binder, the session's close runs before the
driver process's close on every exit path — the explicit
`DriverHolder::close` (whether the session close succeeds or fails
early) and the scope-based finalization of an unclosed holder. -/
theorem holder_session_close_before_driver_close (c : Client) (net : Net) :
    sessionBeforeDriver (driverHolderCloseEvents c net) ∧
    sessionBeforeDriver driverHolderDropEvents := by
  constructor
  · rcases hr : (Client.close c net).1 with e | u <;>
      simp only [driverHolderCloseEvents, hr, driverDropEvents, clientDropEvents] <;>
      exact ⟨by decide, by decide⟩
  · simp only [driverHolderDropEvents, driverDropEvents, clientDropEvents]
    exact ⟨by decide, by decide⟩

/-- C5: once `Client::close` has returned successfully, a second call to
close returns success and issues no network request, the session id
having been cleared by the first successful close. -/
theorem close_idempotent (c : Client) (net net2 : Net)
    (h : (Client.close c net).1 = .ok ()) :
    (Client.close c net).2.1.sessionId = none ∧
    (Client.close (Client.close c net).2.1 net2).1 = .ok () ∧
    (Client.close (Client.close c net).2.1 net2).2.2 = [] := by
  have hs : (Client.close c net).2.1.sessionId = none := by
    cases hc : c.sessionId with
    | none => simp [Client.close, hc]
    | some sid =>
      rcases he : execute unitParse (net (Req.delete (urlOfSegments c.url ["session", sid])))
          with e | u
      · rw [Client.close] at h
        simp [hc, he] at h
      · simp [Client.close, hc, he]
  generalize hg : (Client.close c net).2.1 = c1 at hs ⊢
  refine ⟨hs, ?_, ?_⟩ <;> simp [Client.close, hs]

/-- A client holding an open session, for the concrete witnesses. -/
def sampleClient : Client :=
  { url := "http://127.0.0.1:4444/", sessionId := some "sess-1" }

/-- A network oracle that answers every request with a 2xx JSON envelope
`{value: null}` (what a driver answers to a delete-session). -/
def okNullNet : Net := fun _ =>
  { status := 200, contentType := some "application/json",
    body := some (.obj [("value", .null)]), textBody := none }

theorem close_idempotent_witness :
    (Client.close sampleClient okNullNet).1 = .ok () ∧
    ((Client.close sampleClient okNullNet).2.1.sessionId = none ∧
     (Client.close (Client.close sampleClient okNullNet).2.1 okNullNet).1 = .ok () ∧
     (Client.close (Client.close sampleClient okNullNet).2.1 okNullNet).2.2 = []) :=
  ⟨rfl, close_idempotent sampleClient okNullNet okNullNet rfl⟩

/-- C9: when the delete-session request fails, `Client::close` returns
the error with the client state (in particular the session id) unchanged
— the id is cleared only on the no-id or successful-delete paths — and
the best-effort close run on drop re-attempts exactly the same remote
delete. -/
theorem close_error_preserves_state (c : Client) (net net2 : Net) (e : Err)
    (h : (Client.close c net).1 = .error e) :
    (Client.close c net).2.1 = c ∧
    c.sessionId ≠ none ∧
    (Client.dropClient (Client.close c net).2.1 net2).2 = (Client.close c net).2.2 ∧
    (Client.close c net).2.2 ≠ [] := by
  cases hc : c.sessionId with
  | none =>
    rw [Client.close] at h
    simp [hc] at h
  | some sid =>
    rcases he : execute unitParse (net (Req.delete (urlOfSegments c.url ["session", sid])))
        with e2 | u
    · refine ⟨?_, by simp [hc], ?_, ?_⟩
      · simp [Client.close, hc, he]
      · rcases he2 : execute unitParse (net2 (Req.delete (urlOfSegments c.url ["session", sid])))
            with e3 | u3 <;>
          simp [Client.close, Client.dropClient, hc, he, he2]
      · simp [Client.close, hc, he]
    · rw [Client.close] at h
      simp [hc, he] at h

/-- A network oracle that rejects every request with a 500 whose JSON
body is a webdriver protocol error. -/
def err500Net : Net := fun _ =>
  { status := 500, contentType := some "application/json",
    body := some (.obj [("value",
      .obj [("error", .str "invalid session id"),
            ("message", .str "session deleted elsewhere")])]),
    textBody := none }

theorem close_error_preserves_state_witness :
    (Client.close sampleClient err500Net).1
        = .error (.wd ⟨"invalid session id", "session deleted elsewhere"⟩) ∧
    ((Client.close sampleClient err500Net).2.1 = sampleClient ∧
     sampleClient.sessionId ≠ none ∧
     (Client.dropClient (Client.close sampleClient err500Net).2.1 err500Net).2
        = (Client.close sampleClient err500Net).2.2 ∧
     (Client.close sampleClient err500Net).2.2 ≠ []) :=
  ⟨rfl, close_error_preserves_state sampleClient err500Net err500Net
    (.wd ⟨"invalid session id", "session deleted elsewhere"⟩) rfl⟩

/-- C6: with no session id present, every session-scoped operation fails
immediately and locally with the no-active-session error, issuing no
network request at all. -/
theorem ops_fail_locally_without_session (c : Client) (net : Net) (t : Timeouts)
    (visitUrl : String) (w : Window) (frame : Option Element) (elt : Element)
    (by_ : By) (keys attr : String) (h : c.sessionId = none) :
    Client.timeouts c net = (.error .noSession, []) ∧
    Client.set_timeouts c net t = (.error .noSession, []) ∧
    Client.visit c net visitUrl = (.error .noSession, []) ∧
    Client.back c net = (.error .noSession, []) ∧
    Client.forward c net = (.error .noSession, []) ∧
    Client.refresh c net = (.error .noSession, []) ∧
    Client.title c net = (.error .noSession, []) ∧
    Client.current_url c net = (.error .noSession, []) ∧
    Client.window c net = (.error .noSession, []) ∧
    Client.close_window c net = (.error .noSession, []) ∧
    Client.switch_to_window c net w = (.error .noSession, []) ∧
    Client.windows c net = (.error .noSession, []) ∧
    Client.switch_to_frame c net frame = (.error .noSession, []) ∧
    Client.switch_to_parent_frame c net = (.error .noSession, []) ∧
    Client.find_element c net by_ = (.error .noSession, []) ∧
    Client.find_elements c net by_ = (.error .noSession, []) ∧
    Client.find_element_from c net elt by_ = (.error .noSession, []) ∧
    Client.find_elements_from c net elt by_ = (.error .noSession, []) ∧
    Client.text c net elt = (.error .noSession, []) ∧
    Client.«attribute» c net elt attr = (.error .noSession, []) ∧
    Client.name c net elt = (.error .noSession, []) ∧
    Client.click c net elt = (.error .noSession, []) ∧
    Client.send_keys c net elt keys = (.error .noSession, []) ∧
    Client.clear c net elt = (.error .noSession, []) ∧
    Client.page_source c net = (.error .noSession, []) ∧
    Client.screenshot c net = (.error .noSession, []) ∧
    Client.element_screenshot c net elt = (.error .noSession, []) := by
  have hs : Client.session c = .error .noSession := by
    simp [Client.session, h]
  refine ⟨?_, ?_, ?_, ?_, ?_, ?_, ?_, ?_, ?_, ?_, ?_, ?_, ?_, ?_, ?_, ?_, ?_,
      ?_, ?_, ?_, ?_, ?_, ?_, ?_, ?_, ?_, ?_⟩ <;>
    simp [Client.timeouts, Client.set_timeouts, Client.visit, Client.back,
      Client.forward, Client.refresh, Client.title, Client.current_url,
      Client.window, Client.close_window, Client.switch_to_window,
      Client.windows, Client.switch_to_frame, Client.switch_to_parent_frame,
      Client.find_element, Client.find_elements, Client.find_element_from,
      Client.find_elements_from, Client.text, Client.«attribute», Client.name,
      Client.click, Client.send_keys, Client.clear, Client.page_source,
      Client.screenshot, Client.element_screenshot,
      Client.getOp, Client.postOp, Client.deleteOp, hs]

/-- A client with no session id. -/
def sessionlessClient : Client := { url := "http://127.0.0.1:4444/", sessionId := none }

theorem ops_fail_locally_without_session_witness :
    sessionlessClient.sessionId = none ∧
    Client.timeouts sessionlessClient okNullNet = (.error .noSession, []) :=
  ⟨rfl, (ops_fail_locally_without_session sessionlessClient okNullNet
    ⟨0, 0, 0⟩ "u" ⟨"w"⟩ none ⟨"e"⟩ (By.css "p") "k" "a" rfl).1⟩

/-- A string starting with `text/` cannot also start with
`application/json` (their first characters differ). -/
theorem startsWith_text_not_json (s : String) (h : strStartsWith s "text/" = true) :
    strStartsWith s "application/json" = false := by
  unfold strStartsWith at h ⊢
  have htd : "text/".data = ['t', 'e', 'x', 't', '/'] := rfl
  have hjd : "application/json".data
      = ['a', 'p', 'p', 'l', 'i', 'c', 'a', 't', 'i', 'o', 'n', '/', 'j', 's', 'o', 'n'] := rfl
  rw [htd] at h
  rw [hjd]
  cases hd : s.data with
  | nil => rw [hd] at h; simp [List.isPrefixOf] at h
  | cons x xs =>
    rw [hd] at h
    simp only [List.isPrefixOf, Bool.and_eq_true, beq_iff_eq] at h
    obtain ⟨hx, _⟩ := h
    subst hx
    simp [List.isPrefixOf]

/-- C7: for every non-success HTTP response, the error is classified by
content type: a Content-Type starting with `application/json` whose body
parses as the protocol-error envelope surfaces that protocol error; a
Content-Type starting with `text/` yields the diagnostic error capturing
the body text; any other — or missing — content type yields the generic
transport error carrying only the HTTP status. -/
theorem execute_classifies_by_content_type {R : Type} (p : JsonV → Option R)
    (res : RawResp) (hfail : isSuccess res.status = false) :
    (strStartsWith (contentTypeOf res) "application/json" = true →
      ∀ wd, res.body.bind (parseHasValue WdError.parse) = some wd →
        execute p res = .error (.wd wd)) ∧
    (strStartsWith (contentTypeOf res) "text/" = true →
      ∀ msg, res.textBody = some msg →
        execute p res = .error (.textDiag res.status msg)) ∧
    (strStartsWith (contentTypeOf res) "application/json" = false →
      strStartsWith (contentTypeOf res) "text/" = false →
        execute p res = .error (.httpStatus res.status)) ∧
    (res.contentType = none → execute p res = .error (.httpStatus res.status)) := by
  refine ⟨?_, ?_, ?_, ?_⟩
  · intro hj wd hwd
    simp [execute, hfail, hj, hwd]
  · intro ht msg hmsg
    simp [execute, hfail, startsWith_text_not_json _ ht, ht, hmsg]
  · intro hj ht
    simp [execute, hfail, hj, ht]
  · intro hct
    have hc : contentTypeOf res = "application/octet-stream" := by
      simp [contentTypeOf, hct]
    simp [execute, hfail, hc]
    constructor

/-- A 404 response with a plain-text body, for the C7 witness. -/
def notFoundTextResp : RawResp :=
  { status := 404, contentType := some "text/plain", body := none,
    textBody := some "unknown command" }

theorem execute_classifies_witness :
    isSuccess notFoundTextResp.status = false ∧
    strStartsWith (contentTypeOf notFoundTextResp) "text/" = true ∧
    execute unitParse notFoundTextResp = .error (.textDiag 404 "unknown command") :=
  ⟨rfl, rfl,
    (execute_classifies_by_content_type unitParse notFoundTextResp rfl).2.1 rfl
      "unknown command" rfl⟩

/-- The polling loop of `src/gecko.rs` `Driver::start`:
`while !driver.is_healthy() { driver.ensure_still_alive()?; sleep; pause *= 2 }`
— it has no deadline at all.  `geckoStartPoll fuel` runs at most `fuel`
iterations and answers `none` when the loop is still running after them,
`some (ok ())` when the loop exited towards `Ok(driver)`, and
`some (error ...)` when `ensure_still_alive` bailed. -/
def geckoStartPoll (childStatus : Nat → Option Int) (healthy : Nat → Bool) :
    Nat → Nat → Option (Except SupErr Unit)
  | 0, _ => none
  | fuel + 1, i =>
    if healthy i then some (.ok ())
    else
      match childStatus i with
      | some st => some (.error (.processExited st))
      | none => geckoStartPoll childStatus healthy fuel (i + 1)

/-- C3 (code bug): with the spawned child staying alive but the
`/status` health check never succeeding, the 120s deadline passes and
`wait_until` reports `Ok(false)` — the driver never became healthy — but
`Driver::driver_config` discards that flag (its `?` only propagates the
`Err` case) and returns the driver as if it had started successfully,
instead of failing with a startup-timeout error; and the geckodriver
variant of start does not even terminate: its polling loop is still
running after any number of iterations. -/
theorem driver_config_succeeds_despite_startup_timeout :
    wait_until START_TIMEOUT_MS (startCheck (fun _ => none) (fun _ => false))
      = .ok false ∧
    driver_config 4444 (startCheck (fun _ => none) (fun _ => false))
      = .ok { port := 4444 } ∧
    ∀ fuel i, geckoStartPoll (fun _ => none) (fun _ => false) fuel i = none := by
  refine ⟨rfl, rfl, ?_⟩
  intro fuel
  induction fuel with
  | zero => intro i; rfl
  | succ n ih => intro i; simpa [geckoStartPoll] using ih (i + 1)

/-- C8: when every candidate port reports address-in-use, the port
allocator terminates — within at most 61092 bind attempts, the point at
which `start_port.checked_add(off as u16)` overflows — and fails with
the resource-exhaustion error rather than looping forever. -/
theorem port_allocator_exhaustion (off : Nat) :
    (unused_port_no (fun _ => .addrInUse) off).1 = .error .exhausted ∧
    (unused_port_no (fun _ => .addrInUse) off).2.length ≤ 61092 := by
  have key : ∀ n off2, 61092 - off2 % 65536 ≤ n →
      (unused_port_no (fun _ => .addrInUse) off2).1 = .error .exhausted ∧
      (unused_port_no (fun _ => .addrInUse) off2).2.length ≤ 61092 - off2 % 65536 := by
    intro n
    induction n with
    | zero =>
      intro off2 hle
      have hov : 61091 < off2 % 65536 := by omega
      rw [unused_port_no]
      simp [hov]
    | succ n ih =>
      intro off2 hle
      by_cases hov : 61091 < off2 % 65536
      · rw [unused_port_no]
        simp [hov]
      · have hnext : (off2 + 1) % 65536 = off2 % 65536 + 1 := by omega
        obtain ⟨ih1, ih2⟩ := ih (off2 + 1) (by omega)
        rw [unused_port_no]
        simp only [hov, dite_false, dif_neg, not_false_iff]
        refine ⟨ih1, ?_⟩
        simp only [List.length_cons]
        omega
  obtain ⟨h1, h2⟩ := key (61092 - off % 65536) off le_rfl
  exact ⟨h1, le_trans h2 (by omega)⟩

end Sulfur
